import Mathlib

/-
Verification of the RAG application's ingestion and retrieval pipeline
(src/data_loader.py, src/vector_db.py, src/main.py) against its
natural-language specification, via a shallow embedding in Lean.

Modelling conventions:
- Python exceptions are modelled by the Except monad: a call that may raise
  returns Except PyExc.
- Remote backends (the Qdrant client, the OpenAI embeddings endpoint, the
  chat model) are parameters of the embedded functions: an environment
  records, per attempt, whether the backend call succeeds or which exception
  it raises.
- The tenacity retry decorator is modelled by an explicit loop (tenacityAux)
  reproducing stop_after_attempt / wait_exponential / retry_if_exception_type
  semantics, recording the number of attempts, backend calls and sleeps.
- Per-process interpreter state that varies between runs (CPython's string
  hash randomization, PYTHONHASHSEED) is modelled by a seed parameter
  threaded into every computation that could observe it; computations whose
  results are independent of the seed are run-deterministic.
-/

namespace RAG

/-- Domain errors (src/exceptions.py). Each constructor carries the message and
the structured fields the corresponding exception class stores in its
self.details dictionary (PDFLoadError.file_path, EmbeddingError.model and
text_count, VectorDBError.operation and collection). -/
inductive RAGError where
  | pdfLoadError (message : String) (filePath : Option String)
  | chunkingError (message : String)
  | embeddingError (message : String) (model : Option String) (textCount : Option Nat)
  | vectorDBError (message : String) (operation : Option String) (collection : Option String)
  | searchError (message : String)
  deriving DecidableEq, Repr

/-- Python exceptions observable in the modelled code: the qdrant
UnexpectedResponse; the openai v1 APIError family, in which RateLimitError,
AuthenticationError and BadRequestError are all subclasses of
APIStatusError, itself a subclass of APIError (apiError stands for any
other family member, such as InternalServerError or APIConnectionError); an
arbitrary exception outside that family; the application's own domain
errors; and tenacity's RetryError raised on retry exhaustion (tenacity's
default reraise=False wraps the last attempt). -/
inductive PyExc where
  | unexpectedResponse (message : String)
  | rateLimitError (message : String)
  | authenticationError (message : String)
  | badRequestError (message : String)
  | apiError (message : String)
  | otherError (message : String)
  | rag (e : RAGError)
  | retryError (last : PyExc)
  deriving DecidableEq, Repr

/-- Message text of a domain error, used when str(e) is interpolated. -/
def ragMsg : RAGError → String
  | .pdfLoadError m _ => m
  | .chunkingError m => m
  | .embeddingError m _ _ => m
  | .vectorDBError m _ _ => m
  | .searchError m => m

/-- Message text of an exception, the model of Python's str(e) interpolation
into wrapper messages. -/
def excMsg : PyExc → String
  | .unexpectedResponse m => m
  | .rateLimitError m => m
  | .authenticationError m => m
  | .badRequestError m => m
  | .apiError m => m
  | .otherError m => m
  | .rag e => ragMsg e
  | .retryError _ => "RetryError"

/-- Model of tenacity.wait_exponential(multiplier, min, max): the sleep after
the failed attempt numbered attemptNumber (1-based) is
multiplier * 2 ^ (attemptNumber - 1), clamped into the interval from mn to mx.
This mirrors tenacity's wait_exponential.__call__, which uses exponent
attempt_number - 1 and then clamps. -/
def waitExponential (multiplier mn mx attemptNumber : Nat) : Nat :=
  max mn (min (multiplier * 2 ^ (attemptNumber - 1)) mx)

/-- Decidable equality of Except values, needed to evaluate concrete traces. -/
instance {ε α : Type} [DecidableEq ε] [DecidableEq α] : DecidableEq (Except ε α) := fun x y =>
  match x, y with
  | .ok a, .ok b => if h : a = b then .isTrue (by simp [h]) else .isFalse (by simp [h])
  | .error a, .error b => if h : a = b then .isTrue (by simp [h]) else .isFalse (by simp [h])
  | .ok _, .error _ => .isFalse (by simp)
  | .error _, .ok _ => .isFalse (by simp)

/-- Observable trace of one invocation of a tenacity-decorated function:
how many times the wrapped body ran (attempts), how many remote backend calls
it made in total (calls), the sleeps performed between attempts, and the
final outcome (on retry exhaustion, PyExc.retryError wrapping the last
attempt's exception, which is tenacity's default reraise=False behavior). -/
structure RetryTrace (α : Type) where
  attempts : Nat
  calls : Nat
  sleeps : List Nat
  result : Except PyExc α
  deriving DecidableEq, Repr

/-- Model of tenacity's retry loop. The body of attempt k (1-based) returns
the number of backend calls it performed and its outcome. After a failed
attempt, retrying happens only when the raised exception satisfies the
retry_if_exception_type predicate and attempts remain (stop_after_attempt);
otherwise the exception is re-raised as is (non-retryable) or wrapped in
RetryError (exhaustion). -/
def tenacityAux {α : Type} (wait : Nat → Nat) (retryable : PyExc → Bool)
    (body : Nat → Nat × Except PyExc α) : Nat → Nat → RetryTrace α
  | _, 0 => ⟨0, 0, [], .error (.retryError (.otherError "no attempt allowed"))⟩
  | k, fuel + 1 =>
    match body k with
    | (c, .ok a) => ⟨1, c, [], .ok a⟩
    | (c, .error e) =>
      if retryable e then
        if fuel = 0 then ⟨1, c, [], .error (.retryError e)⟩
        else
          let rest := tenacityAux wait retryable body (k + 1) fuel
          ⟨rest.attempts + 1, c + rest.calls, wait k :: rest.sleeps, rest.result⟩
      else ⟨1, c, [], .error e⟩

/-- Run a tenacity-decorated body with stop_after_attempt maxAttempts,
starting from attempt number 1. -/
def tenacityRun {α : Type} (maxAttempts : Nat) (wait : Nat → Nat)
    (retryable : PyExc → Bool) (body : Nat → Nat × Except PyExc α) : RetryTrace α :=
  tenacityAux wait retryable body 1 maxAttempts

/-- Retry predicate of the vector_db.py decorators:
retry_if_exception_type(UnexpectedResponse). -/
def isUnexpectedResponse : PyExc → Bool
  | .unexpectedResponse _ => true
  | _ => false

/-- Retry predicate of the data_loader.py decorator:
retry_if_exception_type((APIError, RateLimitError)) performs an isinstance
check against that tuple. In the openai v1 SDK this code imports,
RateLimitError, AuthenticationError and BadRequestError are all subclasses
of APIStatusError, itself a subclass of APIError, so the check matches
every member of the APIError family — including auth failures and malformed
requests, not only errors that are transient in nature. -/
def isOpenAIRetryable : PyExc → Bool
  | .rateLimitError _ => true
  | .authenticationError _ => true
  | .badRequestError _ => true
  | .apiError _ => true
  | _ => false

/-- Model of CPython's randomized string hashing: the interpreter hashes
strings with a function keyed by a per-process random seed (PYTHONHASHSEED).
The exact siphash mixing is irrelevant here; what matters is that the value
depends on the seed, so anything derived from it (such as set iteration
order) may differ between runs. Modelled as a seed-keyed polynomial hash
reduced modulo 2^64. -/
def pyHash (seed : Nat) (s : String) : Nat :=
  s.data.foldl (fun h c => (h * 1000003 + c.toNat) % (2 ^ 64)) (seed % (2 ^ 64))

/-- First-appearance deduplication with an explicit seen accumulator:
dedupFirstFrom seen l keeps the elements of l not in seen, first occurrence
only, in order of first appearance. dedupFirst l is the contents of a Python
set after the sequence of additions l, listed in insertion order. -/
def dedupFirstFrom (seen : List String) : List String → List String
  | [] => []
  | a :: l =>
    if a ∈ seen then dedupFirstFrom seen l
    else a :: dedupFirstFrom (a :: seen) l

/-- Contents of a Python set after adding the elements of l in order, listed
in insertion order of first appearance. -/
def dedupFirst (l : List String) : List String :=
  dedupFirstFrom [] l

/-- Model of list(s) for a CPython set s of strings built by adding the
elements of l in order: iteration yields elements in hash-table slot order,
not insertion order. The slot of an element is its (seed-keyed, randomized)
hash modulo the table size (8, CPython's initial set table size; growth and
probing are abstracted). Re-adding an existing element does not move it, so
the carrier is the first-appearance deduplication of l. The iteration order
depends on the per-process hash seed, so properties of the code must hold
for every seed. -/
def pySetList (seed : Nat) (l : List String) : List String :=
  (List.range 8).flatMap (fun slot => (dedupFirst l).filter (fun e => pyHash seed e % 8 = slot))

/-- Embedding vectors. The numeric content of a vector is never inspected by
the code under verification (floats are opaque data passed through), so the
scalar type is modelled as Int. -/
abbrev Vec := List Int

/-- Payload dictionary of a point, as written by ingestion and read by search:
the optional fields model presence or absence of the "text" and "source"
dictionary keys. -/
structure Payload where
  text : Option String := none
  source : Option String := none
  deriving DecidableEq, Repr

/-- A scored point returned by the Qdrant backend from a similarity search,
in similarity rank order. The payload attribute may be absent (None). -/
structure ScoredPoint where
  payload : Option Payload := none
  deriving DecidableEq, Repr

/-- Model of: payload = getattr(r, "payload", None) or \x7b\x7d followed by
payload.get("text", ""). A missing payload or missing key yields "". -/
def getText (r : ScoredPoint) : String :=
  match r.payload with
  | none => ""
  | some p => p.text.getD ""

/-- Model of payload.get("source", "") on the same dictionary. -/
def getSource (r : ScoredPoint) : String :=
  match r.payload with
  | none => ""
  | some p => p.source.getD ""

/-- Result dictionary of QdrantStorage.search: the "contexts" and "sources"
lists. -/
structure SearchOut where
  contexts : List String
  sources : List String
  deriving DecidableEq, Repr

/-- The result-processing loop of QdrantStorage.search (src/vector_db.py
lines 157-166): for each returned point in rank order, if its text is truthy
(non-empty), append the text to contexts and add the source to the source
set; the second component records the sequence of set additions in order. -/
def searchLoop : List ScoredPoint → List String × List String → List String × List String
  | [], acc => acc
  | r :: rs, (ctxs, ins) =>
    if getText r = "" then searchLoop rs (ctxs, ins)
    else searchLoop rs (ctxs ++ [getText r], ins ++ [getSource r])

/-- The sequence of sources.add(source) calls performed by the search loop,
in rank order of the points that contributed them. The insertion order of
first appearance of the distinct sources is dedupFirst of this list. -/
def collectSources (results : List ScoredPoint) : List String :=
  (searchLoop results ([], [])).2

namespace QdrantStorage

/-- Result assembly of QdrantStorage.search on a successful backend response
(src/vector_db.py lines 149-169): the backend returns the scored points in
similarity rank order; the loop collects contexts and a source set, and the
returned dictionary holds contexts and list(sources). The seed is the
per-process hash seed governing set iteration order. The tenacity wrapper
and the SearchError wrapping concern only failing backend responses and are
not modelled here, since all claims about search quantify over successfully
returned result sets. -/
def search (seed : Nat) (results : List ScoredPoint) : SearchOut :=
  let p := searchLoop results ([], [])
  ⟨p.1, pySetList seed p.2⟩

/-- Backend environment of QdrantStorage.upsert: the collection name and, for
each attempt number, the outcome of the qdrant client's upsert call (none
means success, some e means the call raises e). -/
structure UpsertEnv where
  collection : String
  backendUpsert : Nat → Option PyExc

/-- Body of one attempt of QdrantStorage.upsert (src/vector_db.py lines
102-122), returning the number of backend calls made and the outcome.
Empty ids short-circuits to 0 with no backend call. Point construction
indexes vectors[i] and payloads[i] for i below len(ids); an out-of-range
index raises inside the try block and is wrapped like any other exception.
Every exception raised inside the try block, including the transient
UnexpectedResponse, is wrapped into VectorDBError tagged with operation
"upsert" and the collection name. -/
def upsertBody (env : UpsertEnv) (ids : List String) (vectors : List Vec)
    (payloads : List Payload) (k : Nat) : Nat × Except PyExc Nat :=
  if ids = [] then (0, .ok 0)
  else if ids.length ≤ vectors.length ∧ ids.length ≤ payloads.length then
    match env.backendUpsert k with
    | none => (1, .ok ids.length)
    | some e =>
      (1, .error (.rag (.vectorDBError ("Failed to upsert vectors: " ++ excMsg e)
        (some "upsert") (some env.collection))))
  else
    (0, .error (.rag (.vectorDBError "Failed to upsert vectors: list index out of range"
      (some "upsert") (some env.collection))))

/-- QdrantStorage.upsert (src/vector_db.py lines 77-122): the body above
under the tenacity decorator retry(stop=stop_after_attempt(3),
wait=wait_exponential(multiplier=1, min=1, max=5),
retry=retry_if_exception_type(UnexpectedResponse)). -/
def upsert (env : UpsertEnv) (ids : List String) (vectors : List Vec)
    (payloads : List Payload) : RetryTrace Nat :=
  tenacityRun 3 (waitExponential 1 1 5) isUnexpectedResponse
    (upsertBody env ids vectors payloads)

/-- QdrantStorage.health_check (src/vector_db.py lines 213-224): calls
client.get_collections inside a try block; returns True on success and False
on any exception. The outer Except layer is the method's own raising
behavior: it is always .ok, i.e. the method never raises. -/
def health_check (backend : Except PyExc Unit) : Except PyExc Bool :=
  match backend with
  | .ok _ => .ok true
  | .error _ => .ok false

end QdrantStorage

/-- Outcome of one call to the remote embeddings endpoint
(client.embeddings.create): success, or an exception classified by where it
falls in the openai v1 exception hierarchy. rateLimit is RateLimitError
(HTTP 429); authFailure is AuthenticationError (401) and badRequest is
BadRequestError (400) — both APIStatusError subclasses of APIError in the
v1 SDK, so caught and re-raised by the except (APIError, RateLimitError)
clause like any transient error; apiFailure is any other APIError family
member (InternalServerError, APIConnectionError, ...); failure is an
exception outside the APIError family, the only case the code wraps
immediately. -/
inductive ApiResp where
  | success
  | rateLimit (message : String)
  | authFailure (message : String)
  | badRequest (message : String)
  | apiFailure (message : String)
  | failure (message : String)
  deriving DecidableEq, Repr

/-- Classifies the outcomes that raise a member of the APIError family —
the exceptions the except (APIError, RateLimitError) clause re-raises for
tenacity instead of wrapping, whether or not they are transient in
nature. -/
def isAPIErrorResp : ApiResp → Bool
  | .rateLimit _ => true
  | .authFailure _ => true
  | .badRequest _ => true
  | .apiFailure _ => true
  | _ => false

/-- Environment of the embedder: the configured model name
(settings.openai_embed_model), the vector the API returns for each input
text on success (the API contract: one vector per input, in input order),
and the outcome of the API call at each attempt number for a given input
batch. -/
structure EmbedEnv where
  model : String
  embedOne : String → Vec
  api : Nat → List String → ApiResp

/-- Body of one attempt of embed_texts (src/data_loader.py lines 102-125),
returning the number of API calls made and the outcome. Empty input returns
[] before any API call. On success the response carries one embedding per
input text in input order. Every APIError family member — RateLimitError,
AuthenticationError, BadRequestError and any other APIError — is re-raised
as is (the except (APIError, RateLimitError) clause lets tenacity handle
it); only an exception outside the APIError family falls to the generic
except clause and is wrapped into EmbeddingError carrying the model name
and the input text count. -/
def embedBody (env : EmbedEnv) (texts : List String) (k : Nat) :
    Nat × Except PyExc (List Vec) :=
  if texts = [] then (0, .ok [])
  else
    match env.api k texts with
    | .success => (1, .ok (texts.map env.embedOne))
    | .rateLimit m => (1, .error (.rateLimitError m))
    | .authFailure m => (1, .error (.authenticationError m))
    | .badRequest m => (1, .error (.badRequestError m))
    | .apiFailure m => (1, .error (.apiError m))
    | .failure m =>
      (1, .error (.rag (.embeddingError ("Failed to generate embeddings: " ++ m)
        (some env.model) (some texts.length))))

/-- Sleep durations of the embed_texts decorator:
wait_exponential(multiplier=1, min=2, max=10). -/
def waitEmbed (attemptNumber : Nat) : Nat :=
  waitExponential 1 2 10 attemptNumber

/-- embed_texts (src/data_loader.py lines 81-125): the body above under
retry(stop=stop_after_attempt(3), wait=wait_exponential(multiplier=1, min=2,
max=10), retry=retry_if_exception_type((APIError, RateLimitError))). -/
def embed_texts (env : EmbedEnv) (texts : List String) : RetryTrace (List Vec) :=
  tenacityRun 3 waitEmbed isOpenAIRetryable (embedBody env texts)

/-- The consecutive slices texts[i:i+k] visited by the loop
for i in range(0, len(texts), k) of embed_texts_batch, computed with
structural fuel (the list length bounds the number of iterations when
k is at least 1; for k = 0 Python's range raises ValueError, a case the
spec excludes and this model does not exercise). -/
def embedBatchesAux (k : Nat) : Nat → List String → List (List String)
  | 0, _ => []
  | _, [] => []
  | fuel + 1, ts => ts.take k :: embedBatchesAux k fuel (ts.drop k)

/-- The batches embed_texts_batch processes for a given input and batch
size. -/
def embedBatches (k : Nat) (ts : List String) : List (List String) :=
  embedBatchesAux k ts.length ts

/-- Observable outcome of embed_texts_batch: total number of API calls made
across all batches (including retries) and the final outcome. -/
structure BatchOut where
  calls : Nat
  result : Except PyExc (List Vec)
  deriving DecidableEq, Repr

/-- The loop of embed_texts_batch: each batch is embedded by embed_texts and
results are concatenated with all_embeddings.extend in input order; an
exception from embed_texts propagates, aborting the loop at the failed
batch. -/
def runBatches (env : EmbedEnv) : List (List String) → BatchOut
  | [] => ⟨0, .ok []⟩
  | b :: bs =>
    let t := embed_texts env b
    match t.result with
    | .error e => ⟨t.calls, .error e⟩
    | .ok vs =>
      let rest := runBatches env bs
      match rest.result with
      | .error e => ⟨t.calls + rest.calls, .error e⟩
      | .ok tail => ⟨t.calls + rest.calls, .ok (vs ++ tail)⟩

/-- embed_texts_batch (src/data_loader.py lines 128-156): empty input
returns [] immediately with no API call; otherwise the input is processed in
consecutive slices of at most batchSize texts, one embed_texts call per
slice. -/
def embed_texts_batch (env : EmbedEnv) (texts : List String) (batchSize : Nat) : BatchOut :=
  if texts = [] then ⟨0, .ok []⟩
  else runBatches env (embedBatches batchSize texts)

/-- A document object returned by PDFReader().load_data: its text attribute,
with none modelling an absent attribute (getattr(d, "text", None) returning
None). -/
structure PdfDoc where
  text : Option String := none
  deriving DecidableEq, Repr

/-- Model of [d.text for d in docs if getattr(d, "text", None)]: page texts
that are truthy, i.e. present and non-empty. -/
def extractTexts (docs : List PdfDoc) : List String :=
  docs.filterMap (fun d =>
    match d.text with
    | none => none
    | some t => if t = "" then none else some t)

/-- The chunking loop of load_and_chunk_pdf: chunks.extend(
splitter.split_text(t)) for each page text, aborting at the first exception
raised by the splitter. -/
def splitAll (split : String → Except String (List String)) :
    List String → Except String (List String)
  | [] => .ok []
  | t :: ts =>
    match split t with
    | .error m => .error m
    | .ok c =>
      match splitAll split ts with
      | .error m => .error m
      | .ok rest => .ok (c ++ rest)

/-- load_and_chunk_pdf (src/data_loader.py lines 29-78). The reader argument
is the outcome of PDFReader().load_data(file=path); the split argument is
splitter.split_text, raising with a message on failure. A reader exception
is wrapped into PDFLoadError with the file path; extracted truthy page
texts being empty raises PDFLoadError "No text content found in PDF" with
the file path; a splitter exception is wrapped into ChunkingError. -/
def load_and_chunk_pdf (reader : Except String (List PdfDoc))
    (split : String → Except String (List String)) (path : String) :
    Except RAGError (List String) :=
  match reader with
  | .error m => .error (.pdfLoadError ("Failed to load PDF: " ++ m) (some path))
  | .ok docs =>
    if extractTexts docs = [] then
      .error (.pdfLoadError "No text content found in PDF" (some path))
    else
      match splitAll split (extractTexts docs) with
      | .error m => .error (.chunkingError ("Failed to chunk text: " ++ m))
      | .ok chunks => .ok chunks

/-- Model of Python's uuid.uuid5(namespace, name): an RFC 4122 name-based
UUID computed by a fixed SHA-1 digest of the namespace UUID's bytes followed
by the name. The digest details are irrelevant to the claims and are
abstracted into a fixed string-mixing function; what the model preserves is
that the result is a pure function of its two string arguments, involving no
per-process state. -/
def uuid5 (namespaceId : String) (name : String) : String :=
  toString ((namespaceId ++ name).data.foldl
    (fun h c => (h * 131 + c.toNat) % (2 ^ 128)) 0)

/-- The namespace constant uuid.NAMESPACE_URL used by _upsert. -/
def NAMESPACE_URL : String := "6ba7b811-9dad-11d1-80b4-00c04fd430c8"

/-- Output of the embed-and-upsert step relevant to point identity: the
generated point ids, the payloads, and the reported ingested count. -/
structure UpsertStepOut where
  ids : List String
  payloads : List Payload
  ingested : Nat
  deriving DecidableEq, Repr

/-- Point id generation and payload assembly of _upsert in rag_ingest_pdf
(src/main.py lines 63-72): ids[i] = str(uuid.uuid5(uuid.NAMESPACE_URL,
f"\x7bsource_id\x7d:\x7bi\x7d")) for i in range(len(chunks)); payloads[i] =
\x7b"source": source_id, "text": chunks[i]\x7d. The runSeed argument is the
per-process interpreter hash seed, available to the step but never consulted
by uuid5-based id generation (unlike Python's builtin hash, which is seed
randomized). -/
def ingestUpsertStep (_runSeed : Nat) (sourceId : String) (chunks : List String) :
    UpsertStepOut :=
  { ids := (List.range chunks.length).map
      (fun i => uuid5 NAMESPACE_URL (sourceId ++ ":" ++ toString i)),
    payloads := chunks.map (fun c => { text := some c, source := some sourceId }),
    ingested := chunks.length }

/-- One chat-model invocation as assembled by rag_query_pdf_ai: the token
budget and the two messages of the body (the fixed system instruction and
the assembled user prompt). -/
structure LLMCall where
  maxTokens : Nat
  systemMsg : String
  userMsg : String
  deriving DecidableEq, Repr

/-- Output of the query pipeline: the chat-model invocations performed (in
order) and the returned dictionary fields answer, sources, num_contexts. -/
structure QueryOutput where
  llmCalls : List LLMCall
  answer : String
  sources : List String
  numContexts : Nat
  deriving DecidableEq, Repr

/-- Python whitespace recognized by str.strip(). -/
def isPyWs (c : Char) : Bool :=
  c = ' ' || c = '\t' || c = '\n' || c = '\r' || c = '\x0b' || c = '\x0c'

/-- Model of str.strip(): removes leading and trailing whitespace. -/
def pyStrip (s : String) : String :=
  ⟨((s.data.dropWhile isPyWs).reverse.dropWhile isPyWs).reverse⟩

/-- The context block of the user prompt:
"\n\n".join(f"- \x7bc\x7d" for c in contexts). Empty contexts yield the
empty string. -/
def contextBlock (contexts : List String) : String :=
  String.intercalate "\n\n" (contexts.map (fun c => "- " ++ c))

/-- The assembled user message of rag_query_pdf_ai (src/main.py lines
98-104). -/
def userContent (contexts : List String) (question : String) : String :=
  "Use the following context to answer the question.\n\nContext:\n"
    ++ contextBlock contexts
    ++ "\n\nQuestion: " ++ question
    ++ "\nAnswer concisely using the context above."

/-- The fixed system instruction of the chat call. -/
def systemPrompt : String :=
  "You answer questions using only the provided context."

/-- rag_query_pdf_ai (src/main.py lines 83-126) after the embed-and-search
step: given the scored points the store returned for the embedded question,
assemble the search result, build the prompt, invoke the chat model exactly
once (with max_tokens 1024) regardless of whether any context was retrieved,
strip the answer, and return answer, sources and num_contexts =
len(found.contexts). The llm argument is the chat backend's reply as a
function of the request. -/
def rag_query (seed : Nat) (results : List ScoredPoint) (question : String)
    (llm : LLMCall → String) : QueryOutput :=
  let found := QdrantStorage.search seed results
  let call : LLMCall := ⟨1024, systemPrompt, userContent found.contexts question⟩
  { llmCalls := [call],
    answer := pyStrip (llm call),
    sources := found.sources,
    numContexts := found.contexts.length }

/-- Upsert backend that raises the transient UnexpectedResponse on every
attempt, against collection "docs". -/
def upsertCexEnv : QdrantStorage.UpsertEnv :=
  ⟨"docs", fun _ => some (.unexpectedResponse "boom")⟩

/-- Embedding backend that rate-limits every attempt. -/
def envTransient : EmbedEnv :=
  ⟨"m", fun s => [Int.ofNat s.length], fun _ _ => .rateLimit "429"⟩

/-- Embedding backend whose first attempt raises an exception outside the
APIError family. -/
def envFail : EmbedEnv :=
  ⟨"m", fun s => [Int.ofNat s.length], fun _ _ => .failure "boom"⟩

/-- Embedding backend raising AuthenticationError on every attempt — the
auth-failure case the spec calls non-transient. -/
def envAuthFail : EmbedEnv :=
  ⟨"m", fun s => [Int.ofNat s.length], fun _ _ => .authFailure "bad key"⟩

/-- Embedding backend that always succeeds, embedding each text to the
one-element vector of its length. -/
def envSuccess : EmbedEnv :=
  ⟨"m", fun s => [Int.ofNat s.length], fun _ _ => .success⟩

/-- Two ranked points whose sources first appear in the order "b", "a". -/
def cexPts : List ScoredPoint :=
  [⟨some { text := some "t1", source := some "b" }⟩,
   ⟨some { text := some "t2", source := some "a" }⟩]

/-- A point with non-empty text and a missing source field. -/
def noSourcePt : ScoredPoint := ⟨some { text := some "hello", source := none }⟩

/-- Reader outcome with pages lacking truthy text: one empty page text and
one document object without a text attribute. -/
def docsNoText : List PdfDoc := [⟨some ""⟩, ⟨none⟩]

/-- Reader outcome with one page of extractable text. -/
def docsHello : List PdfDoc := [⟨some "hello"⟩]

/-- A splitter that fails on every input. -/
def splitBad : String → Except String (List String) := fun _ => .error "bad"

/-- A splitter returning each text as a single chunk. -/
def splitId : String → Except String (List String) := fun t => .ok [t]

/-- A chat backend returning a fixed reply. -/
def llmFixed : LLMCall → String := fun _ => " A "

/-- Characterization of the search result-collecting loop: starting from an
accumulator, it appends the text of every truthy-text point in rank order,
and records the source additions in the same order. -/
theorem searchLoop_eq (results : List ScoredPoint) (ctxs ins : List String) :
    searchLoop results (ctxs, ins) =
      (ctxs ++ (results.filter (fun r => getText r ≠ "")).map getText,
       ins ++ (results.filter (fun r => getText r ≠ "")).map getSource) := by
  induction results generalizing ctxs ins with
  | nil => simp [searchLoop]
  | cons r rs ih =>
    by_cases h : getText r = ""
    · simp [searchLoop, h, ih]
    · simp [searchLoop, h, ih]

/-- The sequence of set additions performed by search is the sources of the
truthy-text points, in rank order. -/
theorem collectSources_eq (results : List ScoredPoint) :
    collectSources results = (results.filter (fun r => getText r ≠ "")).map getSource := by
  rw [collectSources, searchLoop_eq]
  simp

/-- Closed form of the search model: contexts are the texts of the
truthy-text points in rank order, sources are the set listing of their
sources. -/
theorem search_eq (seed : Nat) (results : List ScoredPoint) :
    QdrantStorage.search seed results =
      ⟨(results.filter (fun r => getText r ≠ "")).map getText,
       pySetList seed ((results.filter (fun r => getText r ≠ "")).map getSource)⟩ := by
  rw [QdrantStorage.search, searchLoop_eq]
  simp

/-- Membership in the deduplication with seen accumulator. -/
theorem mem_dedupFirstFrom (l : List String) : ∀ (seen : List String) (x : String),
    x ∈ dedupFirstFrom seen l ↔ x ∈ l ∧ x ∉ seen := by
  induction l with
  | nil => intro seen x; simp [dedupFirstFrom]
  | cons a l ih =>
    intro seen x
    by_cases h : a ∈ seen
    · rw [dedupFirstFrom, if_pos h, ih]
      constructor
      · rintro ⟨hx, hns⟩
        exact ⟨List.mem_cons_of_mem _ hx, hns⟩
      · rintro ⟨hx, hns⟩
        rcases List.mem_cons.mp hx with rfl | hx
        · exact absurd h hns
        · exact ⟨hx, hns⟩
    · rw [dedupFirstFrom, if_neg h]
      simp only [List.mem_cons, ih]
      constructor
      · rintro (rfl | ⟨hx, hns⟩)
        · exact ⟨Or.inl rfl, h⟩
        · exact ⟨Or.inr hx, fun hs => hns (Or.inr hs)⟩
      · rintro ⟨hx, hns⟩
        by_cases hxa : x = a
        · exact Or.inl hxa
        · rcases hx with rfl | hxl
          · exact absurd rfl hxa
          · exact Or.inr ⟨hxl, fun hsc => hsc.elim hxa hns⟩

/-- The deduplication is duplicate-free. -/
theorem nodup_dedupFirstFrom (l : List String) : ∀ seen, (dedupFirstFrom seen l).Nodup := by
  induction l with
  | nil => intro seen; simp [dedupFirstFrom]
  | cons a l ih =>
    intro seen
    by_cases h : a ∈ seen
    · rw [dedupFirstFrom, if_pos h]
      exact ih seen
    · rw [dedupFirstFrom, if_neg h]
      refine List.nodup_cons.mpr ⟨?_, ih (a :: seen)⟩
      intro ha
      exact ((mem_dedupFirstFrom l (a :: seen) a).mp ha).2 (List.mem_cons_self a seen)

/-- Membership in a set's contents is membership in the addition sequence. -/
theorem mem_dedupFirst (l : List String) (x : String) :
    x ∈ dedupFirst l ↔ x ∈ l := by
  rw [dedupFirst, mem_dedupFirstFrom]
  simp

/-- Listing a Python set preserves the carrier: an element is in the listing
iff it was ever added. -/
theorem mem_pySetList (seed : Nat) (l : List String) (x : String) :
    x ∈ pySetList seed l ↔ x ∈ l := by
  rw [pySetList, List.mem_flatMap]
  constructor
  · rintro ⟨slot, _, hx⟩
    exact (mem_dedupFirst l x).mp (List.mem_of_mem_filter hx)
  · intro hx
    refine ⟨pyHash seed x % 8, List.mem_range.mpr (Nat.mod_lt _ (by norm_num)), ?_⟩
    rw [List.mem_filter]
    exact ⟨(mem_dedupFirst l x).mpr hx, by simp⟩

/-- Listing a Python set yields each element exactly once. -/
theorem nodup_pySetList (seed : Nat) (l : List String) : (pySetList seed l).Nodup := by
  rw [pySetList]
  refine List.nodup_flatMap.2 ⟨?_, ?_⟩
  · intro slot _
    exact (nodup_dedupFirstFrom l []).filter _
  · refine (List.pairwise_lt_range 8).imp ?_
    intro a b hab x hxa hxb
    have ha := (List.mem_filter.mp hxa).2
    have hb := (List.mem_filter.mp hxb).2
    simp only [decide_eq_true_eq] at ha hb
    omega

/-- The retry loop never runs the body more often than stop_after_attempt
allows. -/
theorem tenacityAux_attempts_le {α : Type} (wait : Nat → Nat) (retryable : PyExc → Bool)
    (body : Nat → Nat × Except PyExc α) :
    ∀ fuel k, (tenacityAux wait retryable body k fuel).attempts ≤ fuel := by
  intro fuel
  induction fuel with
  | zero => intro k; simp [tenacityAux]
  | succ n ih =>
    intro k
    rw [tenacityAux]
    rcases hb : body k with ⟨c, r⟩
    rcases r with e | a
    · by_cases hr : retryable e = true
      · rcases Nat.eq_zero_or_pos n with rfl | hn
        · simp [hr]
        · have hne : n ≠ 0 := Nat.pos_iff_ne_zero.mp hn
          simp only [hr, if_true, if_neg hne]
          have := ih (k + 1)
          omega
      · simp [hr]
    · simp

/-- When the first attempt's exception does not satisfy the retry predicate
(or the first attempt succeeds), the decorated call consists of exactly that
one attempt, with no sleeps, and its outcome is the body's outcome. -/
theorem tenacityRun_not_retryable {α : Type} (maxA : Nat) (wait : Nat → Nat)
    (retryable : PyExc → Bool) (body : Nat → Nat × Except PyExc α)
    (h : ∀ e, (body 1).2 = .error e → retryable e = false) :
    tenacityRun (maxA + 1) wait retryable body = ⟨1, (body 1).1, [], (body 1).2⟩ := by
  rw [tenacityRun, tenacityAux]
  rcases hb : body 1 with ⟨c, r⟩
  rcases r with e | a
  · have hr : retryable e = false := h e (by rw [hb])
    simp [hb, hr]
  · simp [hb]

/-- When every one of the three allowed attempts fails with a retryable
exception, the decorated call runs the body exactly three times, sleeps the
first two wait amounts, and raises RetryError wrapping the last attempt's
exception. -/
theorem tenacityRun_three_transient {α : Type} (wait : Nat → Nat)
    (retryable : PyExc → Bool) (body : Nat → Nat × Except PyExc α)
    (e1 e2 e3 : PyExc) (c1 c2 c3 : Nat)
    (h1 : body 1 = (c1, .error e1)) (h2 : body 2 = (c2, .error e2))
    (h3 : body 3 = (c3, .error e3))
    (r1 : retryable e1 = true) (r2 : retryable e2 = true) (r3 : retryable e3 = true) :
    tenacityRun 3 wait retryable body =
      ⟨3, c1 + (c2 + c3), [wait 1, wait 2], .error (.retryError e3)⟩ := by
  rw [tenacityRun]
  rw [show (3 : Nat) = 2 + 1 from rfl, tenacityAux, h1]
  simp only [r1, if_true]
  rw [if_neg (by omega : (2 : Nat) ≠ 0)]
  rw [show (2 : Nat) = 1 + 1 from rfl, tenacityAux, h2]
  simp only [r2, if_true]
  rw [if_neg (by omega : (1 : Nat) ≠ 0)]
  rw [show (1 : Nat) = 0 + 1 from rfl, tenacityAux, h3]
  simp [r3]

/-- The PyExc each API outcome surfaces as when raised. -/
def respErr : ApiResp → PyExc
  | .rateLimit m => .rateLimitError m
  | .authFailure m => .authenticationError m
  | .badRequest m => .badRequestError m
  | .apiFailure m => .apiError m
  | .failure m => .otherError m
  | .success => .otherError ""

/-- On an APIError-family outcome, one embed attempt makes one API call and
re-raises that exception as is, and the decorator's isinstance-based
predicate matches it — whether it is a rate limit, an auth failure, a
malformed request or another APIError. -/
theorem embedBody_reraised (env : EmbedEnv) (texts : List String) (k : Nat)
    (hne : texts ≠ []) (ht : isAPIErrorResp (env.api k texts) = true) :
    embedBody env texts k = (1, .error (respErr (env.api k texts)))
      ∧ isOpenAIRetryable (respErr (env.api k texts)) = true := by
  cases h : env.api k texts <;> rw [h] at ht <;>
    simp [isAPIErrorResp] at ht <;>
    simp [embedBody, if_neg hne, h, respErr, isOpenAIRetryable]

/-- With a backend that always succeeds, embed_texts runs one attempt,
makes one API call per non-empty input (zero for empty input), and returns
one vector per input text in input order. -/
theorem embed_texts_success (env : EmbedEnv) (texts : List String)
    (hs : ∀ k ts, env.api k ts = .success) :
    embed_texts env texts =
      ⟨1, if texts = [] then 0 else 1, [], .ok (texts.map env.embedOne)⟩ := by
  rw [embed_texts, tenacityRun]
  rw [show (3 : Nat) = 2 + 1 from rfl, tenacityAux]
  by_cases h : texts = []
  · subst h; simp [embedBody]
  · simp [embedBody, h, hs 1 texts]

/-- Flattening the batches recovers the input. -/
theorem embedBatchesAux_flatten (k : Nat) (hk : 1 ≤ k) :
    ∀ (fuel : Nat) (ts : List String), ts.length ≤ fuel →
      (embedBatchesAux k fuel ts).flatten = ts := by
  intro fuel
  induction fuel with
  | zero =>
    intro ts h
    have : ts = [] := List.eq_nil_of_length_eq_zero (Nat.le_zero.mp h)
    subst this
    simp [embedBatchesAux]
  | succ n ih =>
    intro ts h
    cases ts with
    | nil => simp [embedBatchesAux]
    | cons a l =>
      rw [show embedBatchesAux k (n + 1) (a :: l) =
        (a :: l).take k :: embedBatchesAux k n ((a :: l).drop k) from rfl]
      rw [List.flatten_cons]
      rw [ih ((a :: l).drop k) (by simp [List.length_drop]; simp at h; omega)]
      exact List.take_append_drop k (a :: l)

/-- The number of batches is the ceiling of the input length divided by the
batch size. -/
theorem embedBatchesAux_length (k : Nat) (hk : 1 ≤ k) :
    ∀ (fuel : Nat) (ts : List String), ts.length ≤ fuel →
      (embedBatchesAux k fuel ts).length = (ts.length + k - 1) / k := by
  intro fuel
  induction fuel with
  | zero =>
    intro ts h
    have hts : ts = [] := List.eq_nil_of_length_eq_zero (Nat.le_zero.mp h)
    subst hts
    simp [embedBatchesAux]
    exact (Nat.div_eq_of_lt (by omega)).symm
  | succ n ih =>
    intro ts h
    cases ts with
    | nil =>
      simp [embedBatchesAux]
      exact (Nat.div_eq_of_lt (by omega)).symm
    | cons a l =>
      rw [show embedBatchesAux k (n + 1) (a :: l) =
        (a :: l).take k :: embedBatchesAux k n ((a :: l).drop k) from rfl]
      simp only [List.length_cons]
      rw [ih ((a :: l).drop k) (by simp [List.length_drop]; simp at h; omega)]
      simp only [List.length_drop, List.length_cons]
      by_cases hnk : l.length + 1 ≤ k
      · have h0 : l.length + 1 - k = 0 := by omega
        rw [h0]
        rw [Nat.div_eq_of_lt (by omega)]
        rw [show l.length + 1 + k - 1 = (l.length + k) from by omega]
        rw [show l.length + k = l.length + 1 * k from by omega]
        rw [Nat.add_mul_div_right _ _ (by omega : 0 < k)]
        rw [Nat.div_eq_of_lt (by omega)]
      · have h1 : l.length + 1 - k + k - 1 = l.length + 1 - 1 := by omega
        rw [h1]
        rw [show l.length + 1 + k - 1 = (l.length + 1 - 1) + k from by omega]
        rw [Nat.add_div_right _ (by omega : 0 < k)]

/-- Every batch is non-empty when the batch size is positive. -/
theorem embedBatchesAux_ne_nil (k : Nat) (hk : 1 ≤ k) :
    ∀ (fuel : Nat) (ts : List String), ∀ b ∈ embedBatchesAux k fuel ts, b ≠ [] := by
  intro fuel
  induction fuel with
  | zero => intro ts b hb; simp [embedBatchesAux] at hb
  | succ n ih =>
    intro ts b hb
    cases ts with
    | nil => simp [embedBatchesAux] at hb
    | cons a l =>
      rw [show embedBatchesAux k (n + 1) (a :: l) =
        (a :: l).take k :: embedBatchesAux k n ((a :: l).drop k) from rfl] at hb
      rcases List.mem_cons.mp hb with rfl | h
      · simp [List.take_eq_nil_iff]
        omega
      · exact ih _ b h

/-- With an always-successful backend, the batch loop makes one API call per
non-empty batch and concatenates the per-batch embeddings in order. -/
theorem runBatches_success (env : EmbedEnv) (hs : ∀ k ts, env.api k ts = .success) :
    ∀ bs : List (List String), (∀ b ∈ bs, b ≠ []) →
      runBatches env bs = ⟨bs.length, .ok (bs.flatten.map env.embedOne)⟩ := by
  intro bs
  induction bs with
  | nil => intro _; simp [runBatches]
  | cons b bs ih =>
    intro h
    rw [runBatches, embed_texts_success env b hs]
    rw [ih (fun x hx => h x (List.mem_cons_of_mem _ hx))]
    have hb : b ≠ [] := h b (List.mem_cons_self _ _)
    simp [hb, Nat.add_comm]

/-- Every failing outcome of the upsert body is a wrapped VectorDBError,
never the transient UnexpectedResponse the decorator's predicate looks
for. -/
theorem upsertBody_not_retryable (env : QdrantStorage.UpsertEnv) (ids : List String)
    (vectors : List Vec) (payloads : List Payload) (k : Nat) :
    ∀ e, (QdrantStorage.upsertBody env ids vectors payloads k).2 = .error e →
      isUnexpectedResponse e = false := by
  intro e he
  rw [QdrantStorage.upsertBody] at he
  by_cases h1 : ids = []
  · simp [h1] at he
  · rw [if_neg h1] at he
    by_cases h2 : ids.length ≤ vectors.length ∧ ids.length ≤ payloads.length
    · rw [if_pos h2] at he
      cases hb : env.backendUpsert k with
      | none => rw [hb] at he; simp at he
      | some e2 =>
        rw [hb] at he
        simp only [Except.error.injEq] at he
        rw [← he]
        rfl
    · rw [if_neg h2] at he
      simp only [Except.error.injEq] at he
      rw [← he]
      rfl

/-- Claim C1: the spec says transient (UnexpectedResponse) upsert failures
are retried up to 3 attempts with exponential backoff of 1 to 5 seconds,
then wrapped as VectorDBError tagged "upsert" with the collection name. The
code contradicts this: the except-Exception block inside the decorated
function wraps every exception, UnexpectedResponse included, into
VectorDBError before tenacity's retry_if_exception_type(UnexpectedResponse)
can observe it, so the predicate never matches and no retry or backoff ever
happens. This theorem shows (1) every upsert invocation performs exactly one
attempt and never sleeps, whatever the backend does, and (2) against a
backend raising UnexpectedResponse on every attempt, upsert makes a single
backend call and immediately raises VectorDBError tagged with operation
"upsert" and the collection name — where the claim requires three attempts
with backoff first. -/
theorem claim_C1_upsert_no_retry :
    (∀ (env : QdrantStorage.UpsertEnv) (ids : List String) (vectors : List Vec)
        (payloads : List Payload),
      (QdrantStorage.upsert env ids vectors payloads).attempts = 1 ∧
      (QdrantStorage.upsert env ids vectors payloads).sleeps = [])
  ∧ QdrantStorage.upsert upsertCexEnv ["id1"] [[1]]
      [{ text := some "t", source := some "s" }] =
      ⟨1, 1, [], .error (.rag (.vectorDBError "Failed to upsert vectors: boom"
        (some "upsert") (some "docs")))⟩ := by
  constructor
  · intro env ids vectors payloads
    have h := tenacityRun_not_retryable 2 (waitExponential 1 1 5) isUnexpectedResponse
      (QdrantStorage.upsertBody env ids vectors payloads)
      (upsertBody_not_retryable env ids vectors payloads 1)
    rw [QdrantStorage.upsert, show (3 : Nat) = 2 + 1 from rfl, h]
    exact ⟨rfl, rfl⟩
  · decide

/-- Claim C2, amended: the contexts list is the texts of the truthy-text
points in the backend's similarity rank order, and the sources list contains
each distinct source of those points exactly once — but in the
hash-seed-dependent iteration order of the Python set, not in insertion
order of first appearance. This holds for every per-process hash seed. -/
theorem claim_C2_sources_set_semantics (seed : Nat) (results : List ScoredPoint) :
    (QdrantStorage.search seed results).contexts =
      (results.filter (fun r => getText r ≠ "")).map getText
  ∧ collectSources results = (results.filter (fun r => getText r ≠ "")).map getSource
  ∧ (QdrantStorage.search seed results).sources.Nodup
  ∧ (∀ s, s ∈ (QdrantStorage.search seed results).sources ↔ s ∈ collectSources results) := by
  refine ⟨?_, collectSources_eq results, ?_, ?_⟩
  · rw [search_eq]
  · rw [search_eq]
    exact nodup_pySetList seed _
  · intro s
    rw [search_eq, collectSources_eq]
    exact mem_pySetList seed _ s

/-- Counterexample to claim C2 as stated: with hash seed 0 and two ranked
points whose sources first appear in the order "b", "a", the returned
sources list is ["a", "b"], which differs from the insertion order of first
appearance ["b", "a"]: list(set(...)) yields hash-slot order, not insertion
order. -/
theorem claim_C2_counterexample :
    (QdrantStorage.search 0 cexPts).sources ≠ dedupFirst (collectSources cexPts)
  ∧ (QdrantStorage.search 0 cexPts).sources = ["a", "b"]
  ∧ dedupFirst (collectSources cexPts) = ["b", "a"] := by
  refine ⟨by decide, by decide, by decide⟩

/-- Claim C5: points whose payload carries empty or missing text are skipped
entirely — the search output over any result set equals the output over the
result set with those points removed, so they contribute to neither contexts
nor sources; and a search over an empty result set returns empty contexts
and empty sources. Holds for every hash seed. -/
theorem claim_C5_search_skip_empty (seed : Nat) (results : List ScoredPoint) :
    QdrantStorage.search seed results =
      QdrantStorage.search seed (results.filter (fun r => getText r ≠ ""))
  ∧ QdrantStorage.search seed [] = ⟨[], []⟩ := by
  constructor
  · rw [search_eq, search_eq, List.filter_filter]
    simp
  · rw [search_eq]
    simp [pySetList, dedupFirst, dedupFirstFrom]

/-- Claim C10: a returned point with non-empty text but a missing or empty
source still contributes: its text is appended to contexts and the empty
string is added to the source set, so the sources list may contain "". -/
theorem claim_C10_empty_source_included (seed : Nat) (results : List ScoredPoint)
    (r : ScoredPoint) (hr : r ∈ results) (ht : getText r ≠ "") (hs : getSource r = "") :
    getText r ∈ (QdrantStorage.search seed results).contexts
  ∧ "" ∈ (QdrantStorage.search seed results).sources := by
  have hrf : r ∈ results.filter (fun r => getText r ≠ "") :=
    List.mem_filter.mpr ⟨hr, by simp [ht]⟩
  constructor
  · rw [search_eq]
    exact List.mem_map.mpr ⟨r, hrf, rfl⟩
  · rw [search_eq]
    rw [mem_pySetList]
    exact List.mem_map.mpr ⟨r, hrf, hs⟩

/-- Witness for claim C10 at a concrete input: a single point with text
"hello" and no source field yields contexts containing "hello" and sources
containing "". -/
theorem claim_C10_witness :
    "hello" ∈ (QdrantStorage.search 0 [noSourcePt]).contexts
  ∧ "" ∈ (QdrantStorage.search 0 [noSourcePt]).sources :=
  claim_C10_empty_source_included 0 [noSourcePt] noSourcePt (by decide) (by decide) (by decide)

/-- Counterexample to claim C3 as stated: an auth failure — the spec's own
example of a non-transient error — is not wrapped immediately as
EmbeddingError. AuthenticationError is an APIStatusError subclass of
APIError in the openai v1 SDK, so retry_if_exception_type((APIError,
RateLimitError)) matches it: against a backend raising
AuthenticationError("bad key") on every attempt, embed_texts runs 3
attempts (not 1), sleeps twice, and raises RetryError wrapping the
AuthenticationError — never an EmbeddingError. -/
theorem claim_C3_counterexample :
    (embed_texts envAuthFail ["a"]).attempts = 3
  ∧ (embed_texts envAuthFail ["a"]).attempts ≠ 1
  ∧ (embed_texts envAuthFail ["a"]).sleeps = [2, 2]
  ∧ (embed_texts envAuthFail ["a"]).result =
      .error (.retryError (.authenticationError "bad key")) := by
  refine ⟨by decide, by decide, by decide, by decide⟩

/-- Claim C3, amended: transient API errors are retried up to 3 attempts
total, with sleeps clamped between 2 and 10 seconds (2s, 2s for the two
backoffs), and exhaustion raises tenacity's RetryError, distinguishable
from EmbeddingError; but the not-retried, immediately-wrapped path applies
only to exceptions outside the openai APIError family: API errors that are
non-transient in nature — auth failure (AuthenticationError), malformed
request (BadRequestError) — are APIError subclasses in the v1 SDK, match
the retry predicate, and are retried identically, surfacing as RetryError
on exhaustion; only a non-APIError exception is wrapped immediately as
EmbeddingError carrying the model name and the input text count. -/
theorem claim_C3_amended_retry_policy (env : EmbedEnv) (texts : List String) :
    (embed_texts env texts).attempts ≤ 3
  ∧ (texts ≠ [] → (∀ k, isAPIErrorResp (env.api k texts) = true) →
      (embed_texts env texts).attempts = 3
      ∧ (embed_texts env texts).sleeps = [2, 2]
      ∧ ∃ e, (embed_texts env texts).result = .error (.retryError e)
          ∧ isOpenAIRetryable e = true)
  ∧ (∀ m, texts ≠ [] → (∀ k, env.api k texts = .authFailure m) →
      embed_texts env texts =
        ⟨3, 3, [2, 2], .error (.retryError (.authenticationError m))⟩)
  ∧ (∀ m, texts ≠ [] → env.api 1 texts = .failure m →
      embed_texts env texts = ⟨1, 1, [],
        .error (.rag (.embeddingError ("Failed to generate embeddings: " ++ m)
          (some env.model) (some texts.length)))⟩)
  ∧ (∀ e msg mo tc, PyExc.retryError e ≠ PyExc.rag (.embeddingError msg mo tc))
  ∧ (∀ n, 2 ≤ waitEmbed n ∧ waitEmbed n ≤ 10) := by
  refine ⟨?_, ?_, ?_, ?_, ?_, ?_⟩
  · rw [embed_texts, tenacityRun]
    exact tenacityAux_attempts_le waitEmbed isOpenAIRetryable (embedBody env texts) 3 1
  · intro hne htr
    obtain ⟨hb1, hr1⟩ := embedBody_reraised env texts 1 hne (htr 1)
    obtain ⟨hb2, hr2⟩ := embedBody_reraised env texts 2 hne (htr 2)
    obtain ⟨hb3, hr3⟩ := embedBody_reraised env texts 3 hne (htr 3)
    have h := tenacityRun_three_transient waitEmbed isOpenAIRetryable (embedBody env texts)
      _ _ _ _ _ _ hb1 hb2 hb3 hr1 hr2 hr3
    rw [embed_texts, h]
    exact ⟨rfl, rfl, respErr (env.api 3 texts), rfl, hr3⟩
  · intro m hne hauth
    have hb : ∀ k, embedBody env texts k = (1, .error (.authenticationError m)) := by
      intro k
      simp [embedBody, if_neg hne, hauth k]
    have h := tenacityRun_three_transient waitEmbed isOpenAIRetryable (embedBody env texts)
      (.authenticationError m) (.authenticationError m) (.authenticationError m)
      1 1 1 (hb 1) (hb 2) (hb 3) rfl rfl rfl
    rw [embed_texts, h]
    rfl
  · intro m hne hapi
    have hb : embedBody env texts 1 = (1,
        .error (.rag (.embeddingError ("Failed to generate embeddings: " ++ m)
          (some env.model) (some texts.length)))) := by
      simp [embedBody, if_neg hne, hapi]
    have h := tenacityRun_not_retryable 2 waitEmbed isOpenAIRetryable (embedBody env texts)
      (fun e he => by rw [hb] at he; simp only [Except.error.injEq] at he; rw [← he]; rfl)
    rw [embed_texts, show (3 : Nat) = 2 + 1 from rfl, h, hb]
  · intro e msg mo tc
    simp
  · intro n
    rw [waitEmbed, waitExponential]
    exact ⟨Nat.le_max_left _ _, Nat.max_le.mpr ⟨by norm_num, Nat.min_le_right _ _⟩⟩

/-- Witness for the amended claim C3: a rate-limiting backend yields exactly
3 attempts with sleeps [2, 2] before RetryError; an always-auth-failing
backend is retried identically and surfaces RetryError wrapping the
AuthenticationError; a backend whose first attempt raises a non-APIError
exception yields one attempt and an immediate EmbeddingError with model "m"
and text count 1. -/
theorem claim_C3_witness :
    (embed_texts envTransient ["a"]).attempts = 3
  ∧ (embed_texts envTransient ["a"]).sleeps = [2, 2]
  ∧ embed_texts envAuthFail ["a"] =
      ⟨3, 3, [2, 2], .error (.retryError (.authenticationError "bad key"))⟩
  ∧ embed_texts envFail ["a"] = ⟨1, 1, [],
      .error (.rag (.embeddingError ("Failed to generate embeddings: " ++ "boom")
        (some "m") (some 1)))⟩ := by
  obtain ⟨ha, hs, _⟩ := (claim_C3_amended_retry_policy envTransient ["a"]).2.1
    (by decide) (fun k => rfl)
  refine ⟨ha, hs, ?_, ?_⟩
  · exact (claim_C3_amended_retry_policy envAuthFail ["a"]).2.2.1 "bad key"
      (by decide) (fun k => rfl)
  · exact (claim_C3_amended_retry_policy envFail ["a"]).2.2.2.1 "boom" (by decide) rfl

/-- Claim C4: with a successful backend, batched embedding with any batch
size of at least 1 returns the same result as the single-call embedding —
one vector per input text, in input order — while issuing exactly
ceil(length / batchSize) backend calls; the empty input returns an empty
output with zero backend calls. -/
theorem claim_C4_batching_equivalence (env : EmbedEnv) (texts : List String) (k : Nat)
    (hk : 1 ≤ k) (hs : ∀ j ts, env.api j ts = .success) :
    (embed_texts_batch env texts k).result = (embed_texts env texts).result
  ∧ (embed_texts env texts).result = .ok (texts.map env.embedOne)
  ∧ (embed_texts_batch env texts k).calls = (texts.length + k - 1) / k
  ∧ embed_texts_batch env [] k = ⟨0, .ok []⟩ := by
  have hres := embed_texts_success env texts hs
  by_cases h : texts = []
  · subst h
    refine ⟨by simp [embed_texts_batch, hres], by rw [hres], ?_, rfl⟩
    simp [embed_texts_batch]
    exact (Nat.div_eq_of_lt (by omega)).symm
  · have hrun := runBatches_success env hs (embedBatches k texts)
      (fun b hb => embedBatchesAux_ne_nil k hk texts.length texts b hb)
    have hflat : (embedBatches k texts).flatten = texts :=
      embedBatchesAux_flatten k hk texts.length texts le_rfl
    have hlen : (embedBatches k texts).length = (texts.length + k - 1) / k :=
      embedBatchesAux_length k hk texts.length texts le_rfl
    refine ⟨?_, by rw [hres], ?_, rfl⟩
    · rw [embed_texts_batch, if_neg h, hrun, hres, hflat]
    · rw [embed_texts_batch, if_neg h, hrun, hlen]

/-- Witness for claim C4: three texts in batches of two give the same result
as one unbatched call and exactly ceil(3/2) = 2 backend calls. -/
theorem claim_C4_witness :
    (embed_texts_batch envSuccess ["a", "bb", "ccc"] 2).result =
      (embed_texts envSuccess ["a", "bb", "ccc"]).result
  ∧ (embed_texts_batch envSuccess ["a", "bb", "ccc"] 2).calls = 2 := by
  have h := claim_C4_batching_equivalence envSuccess ["a", "bb", "ccc"] 2
    (by decide) (fun j ts => rfl)
  exact ⟨h.1, h.2.2.1.trans (by decide)⟩

/-- Claim C6: point ids are a deterministic function of the source id and
the chunk index — uuid5 of the string source_id ++ ":" ++ index, involving
no per-run interpreter state. Two runs with different hash seeds, and even
different chunk contents, generate identical id lists whenever the source id
and the number of chunks agree; in particular identical (source_id,
chunk_index) pairs always yield identical ids. -/
theorem claim_C6_deterministic_ids (seed1 seed2 : Nat) (sourceId : String)
    (chunks chunksB : List String) (hlen : chunks.length = chunksB.length) :
    (ingestUpsertStep seed1 sourceId chunks).ids =
      (ingestUpsertStep seed2 sourceId chunksB).ids := by
  simp [ingestUpsertStep, hlen]

/-- Witness for claim C6: runs with seeds 0 and 7 and different chunk
contents of equal count generate the same two point ids for source "s". -/
theorem claim_C6_witness :
    (ingestUpsertStep 0 "s" ["c1", "c2"]).ids = (ingestUpsertStep 7 "s" ["x", "y"]).ids :=
  claim_C6_deterministic_ids 0 7 "s" ["c1", "c2"] ["x", "y"] (by decide)

/-- Claim C7: when loading succeeds but no page has truthy extractable text,
load_and_chunk_pdf raises PDFLoadError with the file path attached — and
PDFLoadError is distinct from ChunkingError; a failure inside the splitting
logic on extracted text raises ChunkingError instead. -/
theorem claim_C7_load_error_taxonomy (reader : Except String (List PdfDoc))
    (split : String → Except String (List String)) (path : String) (docs : List PdfDoc) :
    (reader = .ok docs → extractTexts docs = [] →
      load_and_chunk_pdf reader split path =
        .error (.pdfLoadError "No text content found in PDF" (some path)))
  ∧ (∀ m, reader = .ok docs → splitAll split (extractTexts docs) = .error m →
      extractTexts docs ≠ [] →
      load_and_chunk_pdf reader split path =
        .error (.chunkingError ("Failed to chunk text: " ++ m)))
  ∧ (∀ m1 fp m2, RAGError.pdfLoadError m1 fp ≠ RAGError.chunkingError m2) := by
  refine ⟨?_, ?_, ?_⟩
  · intro hr he
    subst hr
    simp [load_and_chunk_pdf, he]
  · intro m hr hsplit hne
    subst hr
    simp [load_and_chunk_pdf, if_neg hne, hsplit]
  · intro m1 fp m2
    simp

/-- Witness for claim C7: a document whose pages are an empty text and a
missing text attribute raises PDFLoadError carrying the path; a failing
splitter on a page with text raises ChunkingError. -/
theorem claim_C7_witness :
    load_and_chunk_pdf (.ok docsNoText) splitId "f.pdf" =
      .error (.pdfLoadError "No text content found in PDF" (some "f.pdf"))
  ∧ load_and_chunk_pdf (.ok docsHello) splitBad "g.pdf" =
      .error (.chunkingError ("Failed to chunk text: " ++ "bad")) :=
  ⟨(claim_C7_load_error_taxonomy _ splitId "f.pdf" docsNoText).1 rfl (by decide),
   (claim_C7_load_error_taxonomy _ splitBad "g.pdf" docsHello).2.1 "bad" rfl
     (by decide) (by decide)⟩

/-- Claim C8: the query pipeline never short-circuits on zero retrieved
contexts — the chat model is invoked exactly once, with the context block
empty when contexts are empty — and num_contexts always equals the number of
contexts actually retrieved. -/
theorem claim_C8_query_no_short_circuit (seed : Nat) (results : List ScoredPoint)
    (question : String) (llm : LLMCall → String) :
    (rag_query seed results question llm).llmCalls =
      [⟨1024, systemPrompt, userContent (QdrantStorage.search seed results).contexts question⟩]
  ∧ (rag_query seed results question llm).numContexts =
      (QdrantStorage.search seed results).contexts.length
  ∧ ((QdrantStorage.search seed results).contexts = [] →
      (rag_query seed results question llm).llmCalls =
        [⟨1024, systemPrompt, userContent [] question⟩])
  ∧ contextBlock [] = "" := by
  refine ⟨rfl, rfl, ?_, rfl⟩
  intro h
  simp [rag_query, h]

/-- Witness for claim C8: with an empty result set, the chat model is still
invoked once, with the user prompt assembled over an empty context list. -/
theorem claim_C8_witness :
    (rag_query 0 [] "Q?" llmFixed).llmCalls = [⟨1024, systemPrompt, userContent [] "Q?"⟩] :=
  (claim_C8_query_no_short_circuit 0 [] "Q?" llmFixed).2.2.1 (by decide)

/-- Claim C9: health_check returns a boolean and never raises, whatever the
backend does: it never propagates an exception, reports any backend failure
as False, and reports success as True. -/
theorem claim_C9_health_check_total (backend : Except PyExc Unit) :
    (∀ e, QdrantStorage.health_check backend ≠ .error e)
  ∧ (∀ e, backend = .error e → QdrantStorage.health_check backend = .ok false)
  ∧ (backend = .ok () → QdrantStorage.health_check backend = .ok true) := by
  cases backend with
  | ok u =>
    exact ⟨fun e => by simp [QdrantStorage.health_check],
      fun e h => by simp at h, fun _ => rfl⟩
  | error e0 =>
    exact ⟨fun e => by simp [QdrantStorage.health_check],
      fun e _ => rfl, fun h => by simp at h⟩

/-- Witness for claim C9: a failing backend is reported as False, a working
one as True, and in both cases the method returns rather than raises. -/
theorem claim_C9_witness :
    QdrantStorage.health_check (.error (.otherError "down")) = .ok false
  ∧ QdrantStorage.health_check (.ok ()) = .ok true :=
  ⟨(claim_C9_health_check_total (.error (.otherError "down"))).2.1 _ rfl,
   (claim_C9_health_check_total (.ok ())).2.2 rfl⟩

end RAG
